import Mathlib

/-!
Verification of the backend abstraction and typed-container layer of an
annotated-matrix persistence library.  The definitions below are a shallow
embedding of the Rust sources (`anndata-rs/src/backend.rs` and
`anndata/src/data/data_traits.rs`): fallible operations return an explicit
outcome value, stateful backend calls thread an abstract state, and the
panicking constructs of the source (`unwrap`, `todo`) are modelled by a
dedicated divergence outcome.
-/

set_option maxHeartbeats 1000000

/-- The closed set of twelve concrete scalar types (`ScalarType` in the source). -/
inductive ScalarType where
  | I8 | I16 | I32 | I64
  | U8 | U16 | U32 | U64
  | F32 | F64
  | Bool | String
deriving DecidableEq, Repr

/-- The logical data type of a persisted container (`DataType` in the source). -/
inductive DataType where
  | Array (t : ScalarType)
  | Categorical
  | CsrMatrix (t : ScalarType)
  | CscMatrix (t : ScalarType)
  | DataFrame
  | Scalar (t : ScalarType)
  | Mapping
deriving DecidableEq, Repr

/-- Bit pattern of a 32-bit float payload.  The layer moves such payloads
around without ever interpreting them numerically, so the representation is
an uninterpreted bit pattern. -/
structure F32Repr where
  bits : Nat
deriving DecidableEq, Repr

/-- Bit pattern of a 64-bit float payload. -/
structure F64Repr where
  bits : Nat
deriving DecidableEq, Repr

/-- The Lean carrier of each concrete scalar type. -/
def scalarCarrier : ScalarType → Type
  | .I8 => Int
  | .I16 => Int
  | .I32 => Int
  | .I64 => Int
  | .U8 => Nat
  | .U16 => Nat
  | .U32 => Nat
  | .U64 => Nat
  | .F32 => F32Repr
  | .F64 => F64Repr
  | .Bool => Bool
  | .String => String

/-- The dynamic scalar: a tagged union with one variant per concrete scalar
type (`DynScalar` in the source, reconstructed from its constructor uses in
`backend.rs`). -/
inductive DynScalar where
  | I8 (v : Int)
  | I16 (v : Int)
  | I32 (v : Int)
  | I64 (v : Int)
  | U8 (v : Nat)
  | U16 (v : Nat)
  | U32 (v : Nat)
  | U64 (v : Nat)
  | F32 (v : F32Repr)
  | F64 (v : F64Repr)
  | Bool (v : Bool)
  | String (v : String)
deriving DecidableEq, Repr

/-- The variant tag of a dynamic scalar. -/
def DynScalar.tag : DynScalar → ScalarType
  | .I8 _ => .I8
  | .I16 _ => .I16
  | .I32 _ => .I32
  | .I64 _ => .I64
  | .U8 _ => .U8
  | .U16 _ => .U16
  | .U32 _ => .U32
  | .U64 _ => .U64
  | .F32 _ => .F32
  | .F64 _ => .F64
  | .Bool _ => .Bool
  | .String _ => .String

/-- Total to-dynamic conversion: `BackendData::into_dyn` of each of the
twelve implementations, indexed by the scalar type. -/
def into_dyn : (t : ScalarType) → scalarCarrier t → DynScalar
  | .I8, v => .I8 v
  | .I16, v => .I16 v
  | .I32, v => .I32 v
  | .I64, v => .I64 v
  | .U8, v => .U8 v
  | .U16, v => .U16 v
  | .U32, v => .U32 v
  | .U64, v => .U64 v
  | .F32, v => .F32 v
  | .F64, v => .F64 v
  | .Bool, v => .Bool v
  | .String, v => .String v

/-- Partial dynamic-to-concrete conversion: `BackendData::from_dyn` of each
of the twelve implementations.  Each implementation accepts exactly its own
variant and fails with an expecting-message otherwise; no branch coerces a
numeric payload. -/
def from_dyn : (t : ScalarType) → DynScalar → Except String (scalarCarrier t)
  | .I8, .I8 v => .ok v
  | .I8, _ => .error ("Expecting i8")
  | .I16, .I16 v => .ok v
  | .I16, _ => .error ("Expecting i16")
  | .I32, .I32 v => .ok v
  | .I32, _ => .error ("Expecting i32")
  | .I64, .I64 v => .ok v
  | .I64, _ => .error ("Expecting i64")
  | .U8, .U8 v => .ok v
  | .U8, _ => .error ("Expecting u8")
  | .U16, .U16 v => .ok v
  | .U16, _ => .error ("Expecting u16")
  | .U32, .U32 v => .ok v
  | .U32, _ => .error ("Expecting u32")
  | .U64, .U64 v => .ok v
  | .U64, _ => .error ("Expecting u64")
  | .F32, .F32 v => .ok v
  | .F32, _ => .error ("Expecting f32")
  | .F64, .F64 v => .ok v
  | .F64, _ => .error ("Expecting f64")
  | .Bool, .Bool v => .ok v
  | .Bool, _ => .error ("Expecting bool")
  | .String, .String v => .ok v
  | .String, _ => .error ("Expecting string")

/-- Outcome of a backend-mediated operation: a success or a recoverable
error (the two constructors of `anyhow::Result`), each carrying the state of
the store after the call, or divergence (a Rust panic, as produced by
`unwrap` on `None` and by `todo`). -/
inductive Outcome (ε α σ : Type) where
  | ok (a : α) (s : σ)
  | err (e : ε) (s : σ)
  | diverge (msg : String)
deriving DecidableEq, Repr

/-- Sequencing of outcomes: errors and divergence propagate (Rust's `?`). -/
def Outcome.bind {ε α β σ : Type} (o : Outcome ε α σ) (f : α → σ → Outcome ε β σ) :
    Outcome ε β σ :=
  match o with
  | .ok a s => f a s
  | .err e s => .err e s
  | .diverge m => .diverge m

/-- Mapping over the success value of an outcome. -/
def Outcome.map {ε α β σ : Type} (o : Outcome ε α σ) (f : α → β) : Outcome ε β σ :=
  match o with
  | .ok a s => .ok (f a) s
  | .err e s => .err e s
  | .diverge m => .diverge m

/-- Rust's `Result::unwrap_or`: a recoverable error is replaced by the given
default value; divergence stays divergence. -/
def Outcome.unwrap_or {ε α σ : Type} (o : Outcome ε α σ) (d : α) : Outcome ε α σ :=
  match o with
  | .ok a s => .ok a s
  | .err _ s => .ok d s
  | .diverge m => .diverge m

/-- Tests whether an outcome is a recoverable error. -/
def Outcome.isErr {ε α σ : Type} : Outcome ε α σ → Bool
  | .err _ _ => true
  | _ => false

/-- Tests whether an outcome is a success. -/
def Outcome.isOk {ε α σ : Type} : Outcome ε α σ → Bool
  | .ok _ _ => true
  | _ => false

/-- Tests whether an outcome is a divergence. -/
def Outcome.isDiverge {ε α σ : Type} : Outcome ε α σ → Bool
  | .diverge _ => true
  | _ => false

/-- A hierarchical path inside a file, as the list of its components from
the file root; the root itself is the empty list. -/
abbrev HPath := List String

/-- `std::path::Path::parent`: `none` at the root, otherwise the path with
its last component removed. -/
def HPath.parent (p : HPath) : Option HPath :=
  match p with
  | [] => none
  | _ => some p.dropLast

/-- `std::path::Path::file_name`: the last component, `none` at the root. -/
def HPath.file_name (p : HPath) : Option String :=
  p.getLast?

/-- The capability contract a storage backend implements (the `Backend`,
`FileOp`, `GroupOp`, `LocationOp` and `DatasetOp` traits of the source),
restricted to the operations the verified layer calls.  Every fallible
operation threads an abstract store state. -/
structure Backend (σ : Type) where
  Group : Type
  Dataset : Type
  File : Type
  exists_ : Group → String → σ → Outcome String Bool σ
  open_group : Group → String → σ → Outcome String Group σ
  open_dataset : Group → String → σ → Outcome String Dataset σ
  delete : Group → String → σ → Outcome String Unit σ
  file_open_group : File → HPath → σ → Outcome String Group σ
  group_file : Group → σ → Outcome String File σ
  dataset_file : Dataset → σ → Outcome String File σ
  group_path : Group → HPath
  dataset_path : Dataset → HPath
  group_read_str_attr : Group → String → σ → Outcome String String σ
  dataset_read_str_attr : Dataset → String → σ → Outcome String String σ
  dtype : Dataset → σ → Outcome String ScalarType σ

/-- A typed container: an opened handle that is exactly one of a Group or a
Dataset (`DataContainer` in the source). -/
inductive DataContainer {σ : Type} (B : Backend σ) where
  | Group (g : B.Group)
  | Dataset (d : B.Dataset)

/-- `LocationOp::file` on a container: forwards to whichever variant the
container holds. -/
def DataContainer.file {σ : Type} {B : Backend σ} (c : DataContainer B) (s : σ) :
    Outcome String B.File σ :=
  match c with
  | .Group g => B.group_file g s
  | .Dataset d => B.dataset_file d s

/-- `LocationOp::path` on a container: forwards to whichever variant the
container holds. -/
def DataContainer.path {σ : Type} {B : Backend σ} (c : DataContainer B) : HPath :=
  match c with
  | .Group g => B.group_path g
  | .Dataset d => B.dataset_path d

/-- `LocationOp::read_str_attr` on a container: forwards to the variant. -/
def DataContainer.read_str_attr {σ : Type} {B : Backend σ} (c : DataContainer B)
    (name : String) (s : σ) : Outcome String String σ :=
  match c with
  | .Group g => B.group_read_str_attr g name s
  | .Dataset d => B.dataset_read_str_attr d name s

/-- `DataContainer::as_group`: succeeds exactly on the Group variant. -/
def DataContainer.as_group {σ : Type} {B : Backend σ} (c : DataContainer B) :
    Except String B.Group :=
  match c with
  | .Group g => .ok g
  | .Dataset _ => .error ("Expecting Group")

/-- `DataContainer::as_dataset`: succeeds exactly on the Dataset variant. -/
def DataContainer.as_dataset {σ : Type} {B : Backend σ} (c : DataContainer B) :
    Except String B.Dataset :=
  match c with
  | .Group _ => .error ("Expecting Dataset")
  | .Dataset d => .ok d

/-- `DataContainer::open`: checks existence first; on an existing name it
runs the dataset-open and then the group-open (the argument of `Result::or`
is evaluated unconditionally) and keeps the dataset result when it
succeeded, else the group result. -/
def DataContainer.open {σ : Type} {B : Backend σ} (g : B.Group) (name : String)
    (s : σ) : Outcome String (DataContainer B) σ :=
  match B.exists_ g name s with
  | .err e s1 => .err e s1
  | .diverge m => .diverge m
  | .ok b s1 =>
    if b then
      match B.open_dataset g name s1 with
      | .diverge m => .diverge m
      | .ok d s2 =>
        match B.open_group g name s2 with
        | .diverge m => .diverge m
        | .ok _ s3 => .ok (.Dataset d) s3
        | .err _ s3 => .ok (.Dataset d) s3
      | .err _ s2 =>
        match B.open_group g name s2 with
        | .diverge m => .diverge m
        | .ok g2 s3 => .ok (.Group g2) s3
        | .err e2 s3 => .err e2 s3
    else
      .err (("No group or dataset named ") ++ name ++ (" in group")) s1

/-- Panic message of `Option::unwrap` applied to `None`. -/
def unwrapNoneMsg : String :=
  "called Option::unwrap on a None value"

/-- Panic message of `todo!`. -/
def todoMsg : String :=
  "not yet implemented"

/-- `DataContainer::delete`: resolves the owning file, opens the parent
group named by the parent of the container's path (panicking at the file
root, whose path has no parent), and deletes the child named by the path's
last component. -/
def DataContainer.delete {σ : Type} {B : Backend σ} (c : DataContainer B) (s : σ) :
    Outcome String Unit σ :=
  match c.file s with
  | .err e s1 => .err e s1
  | .diverge m => .diverge m
  | .ok f s1 =>
    match (DataContainer.path c).parent with
    | none => .diverge unwrapNoneMsg
    | some pp =>
      match B.file_open_group f pp s1 with
      | .err e s2 => .err e s2
      | .diverge m => .diverge m
      | .ok pg s2 =>
        match (DataContainer.path c).file_name with
        | none => .diverge unwrapNoneMsg
        | some leaf => B.delete pg leaf s2

/-- First statement of `DataContainer::encoding_type`: the effective
encoding tag.  The reserved attribute `encoding_type` is read from the
container's own variant and a failed read is replaced by the default tag —
`mapping` for a Group, `numeric-scalar` for a Dataset. -/
def encTagOf {σ : Type} {B : Backend σ} (c : DataContainer B) (s : σ) :
    Outcome String String σ :=
  match c with
  | .Group g => (B.group_read_str_attr g ("encoding_type") s).unwrap_or ("mapping")
  | .Dataset d => (B.dataset_read_str_attr d ("encoding_type") s).unwrap_or ("numeric-scalar")

/-- Second statement of `DataContainer::encoding_type`: the match on the
effective tag, in source order.  `csc_matrix` is `todo!` in the source and
therefore diverges; a tag outside the vocabulary is a recoverable
unsupported-type error. -/
def encLookupOf {σ : Type} {B : Backend σ} (c : DataContainer B) (enc : String)
    (s1 : σ) : Outcome String DataType σ :=
  match enc with
  | "string" => .ok (.Scalar .String) s1
  | "numeric-scalar" =>
    match c.as_dataset with
    | .error e => .err e s1
    | .ok d => (B.dtype d s1).map DataType.Scalar
  | "categorical" => .ok .Categorical s1
  | "string-array" => .ok (.Array .String) s1
  | "array" =>
    match c.as_dataset with
    | .error e => .err e s1
    | .ok d => (B.dtype d s1).map DataType.Array
  | "csc_matrix" => .diverge todoMsg
  | "csr_matrix" =>
    match c.as_group with
    | .error e => .err e s1
    | .ok g =>
      match B.open_dataset g ("data") s1 with
      | .err e s2 => .err e s2
      | .diverge m => .diverge m
      | .ok d s2 => (B.dtype d s2).map DataType.CsrMatrix
  | "dataframe" => .ok .DataFrame s1
  | "mapping" => .ok .Mapping s1
  | "dict" => .ok .Mapping s1
  | other => .err (("Unsupported type ") ++ other) s1

/-- `DataContainer::encoding_type`: the effective tag followed by the tag
match, exactly as the two sequenced statements of the source. -/
def DataContainer.encoding_type {σ : Type} {B : Backend σ} (c : DataContainer B)
    (s : σ) : Outcome String DataType σ :=
  (encTagOf c s).bind (fun enc s1 => encLookupOf c enc s1)

/-- Claim-side reading of the encoding tag, written after the specification:
resolve the reserved string attribute, substituting the default tag
`mapping` for an untagged Group and `numeric-scalar` for an untagged
Dataset. -/
def specEncodingTagRead {σ : Type} {B : Backend σ} (c : DataContainer B) (s : σ) :
    Outcome String String σ :=
  match c with
  | .Group g => (B.group_read_str_attr g ("encoding_type") s).unwrap_or ("mapping")
  | .Dataset d => (B.dataset_read_str_attr d ("encoding_type") s).unwrap_or ("numeric-scalar")

/-- Claim-side reading of the physical dtype of the container itself, used
by the `numeric-scalar` and `array` rows of the lookup. -/
def specDtypeOf {σ : Type} {B : Backend σ} (c : DataContainer B) (s : σ) :
    Outcome String ScalarType σ :=
  match c.as_dataset with
  | .error e => .err e s
  | .ok d => B.dtype d s

/-- Claim-side reading of the dtype of the group's `data` child dataset,
used by the `csr_matrix` row of the lookup. -/
def specCsrDtypeOf {σ : Type} {B : Backend σ} (c : DataContainer B) (s : σ) :
    Outcome String ScalarType σ :=
  match c.as_group with
  | .error e => .err e s
  | .ok g =>
    match B.open_dataset g ("data") s with
    | .err e s1 => .err e s1
    | .diverge m => .diverge m
    | .ok d s1 => B.dtype d s1

/-- Claim-side fixed lookup from the effective encoding tag to the logical
type, written as the specification lists it: string to scalar-string,
numeric-scalar to scalar of the physical dtype, categorical, string-array,
array of the physical dtype, csr_matrix of the dtype of the `data` child,
dataframe, and mapping and dict both to Mapping; `csc_matrix` is recognized
but unimplemented (divergence) and anything else is an unsupported-type
error. -/
def specEncodingLookup {σ : Type} {B : Backend σ} (c : DataContainer B)
    (enc : String) (s : σ) : Outcome String DataType σ :=
  if enc = "string" then .ok (.Scalar .String) s
  else if enc = "numeric-scalar" then (specDtypeOf c s).map DataType.Scalar
  else if enc = "categorical" then .ok .Categorical s
  else if enc = "string-array" then .ok (.Array .String) s
  else if enc = "array" then (specDtypeOf c s).map DataType.Array
  else if enc = "csr_matrix" then (specCsrDtypeOf c s).map DataType.CsrMatrix
  else if enc = "dataframe" then .ok .DataFrame s
  else if enc = "mapping" then .ok .Mapping s
  else if enc = "dict" then .ok .Mapping s
  else if enc = "csc_matrix" then .diverge todoMsg
  else .err (("Unsupported type ") ++ enc) s

/-- The fixed vocabulary of recognized encoding tags. -/
def encodingVocab : List String :=
  ["string", "numeric-scalar", "categorical", "string-array", "array",
   "csc_matrix", "csr_matrix", "dataframe", "mapping", "dict"]

/-- A concrete implementation of the entity-specific `WriteData::write`
method, over which the provided `overwrite` default is generic. -/
structure WriteDataImpl (σ : Type) (B : Backend σ) (V : Type) where
  write : V → B.Group → String → σ → Outcome String (DataContainer B) σ

/-- `WriteData::overwrite` (the provided default): resolve the owning file,
open the parent group named by the parent of the container's path
(panicking at the file root), take the leaf name from the path, delete the
old child, and write the value anew under the same name in the same parent
group. -/
def overwrite {σ : Type} {B : Backend σ} {V : Type} (W : WriteDataImpl σ B V)
    (v : V) (c : DataContainer B) (s : σ) : Outcome String (DataContainer B) σ :=
  match c.file s with
  | .err e s1 => .err e s1
  | .diverge m => .diverge m
  | .ok f s1 =>
    match (DataContainer.path c).parent with
    | none => .diverge unwrapNoneMsg
    | some pp =>
      match B.file_open_group f pp s1 with
      | .err e s2 => .err e s2
      | .diverge m => .diverge m
      | .ok pg s2 =>
        match (DataContainer.path c).file_name with
        | none => .diverge unwrapNoneMsg
        | some leaf =>
          match B.delete pg leaf s2 with
          | .err e s3 => .err e s3
          | .diverge m => .diverge m
          | .ok _ s3 => W.write v pg leaf s3

/-- `WriteArrayData::write_from_iter` (the provided default): the body is
`todo!`, so every invocation diverges. -/
def write_from_iter {σ : Type} (B : Backend σ) (ι : Type) (_iter : ι)
    (_g : B.Group) (_name : String) (_s : σ) : Outcome String (DataContainer B) σ :=
  .diverge todoMsg

/-- A per-axis selector.  Modelled from the spec: a selection is either the
entire array or an explicit list of integer coordinates, so a per-axis
selector is either the entire axis or an explicit coordinate list (the
`SelectInfoElem` type of the missing `data::array::slice` module). -/
inductive SelectInfoElem where
  | full
  | points (xs : List Nat)
deriving DecidableEq, Repr

/-- A shape: the ordered list of per-axis extents; its length is the rank
(`Shape` of the missing `data::array::slice` module, modelled from the
spec). -/
abbrev Shape := List Nat

/-- Modelled from the spec: per-axis selectors compose into full-rank
selections by filling all other axes with the entire-axis selector — the
`set_axis` operation of the missing `data::array::slice` module places the
selector at the given axis of a rank-`ndim` selection whose other entries
are the given fill. -/
def SelectInfoElem.set_axis (sel : SelectInfoElem) (axis : Nat) (ndim : Nat)
    (fill : SelectInfoElem) : List SelectInfoElem :=
  (List.range ndim).map (fun j => if j = axis then sel else fill)

/-- A concrete implementation of the required `ArrayOp` methods, over which
the provided `select_axis` default is generic. -/
structure ArrayOpImpl (α : Type) where
  shape : α → Shape
  get : α → List Nat → Option DynScalar
  select : α → List SelectInfoElem → α

/-- `ArrayOp::select_axis` (the provided default): substitute the selector
at the given axis of a full-rank selection, the entire-axis selector
elsewhere, the rank taken from the entity's own shape, and delegate to the
general `select`. -/
def select_axis {α : Type} (E : ArrayOpImpl α) (a : α) (axis : Nat)
    (slice : SelectInfoElem) : α :=
  E.select a (slice.set_axis axis (E.shape a).length SelectInfoElem.full)

/-- A concrete implementation of the required `ReadArrayData` methods, over
which the provided `read_axis` default is generic. -/
structure ReadArrayDataImpl (σ : Type) (B : Backend σ) (α : Type) where
  get_shape : DataContainer B → σ → Outcome String Shape σ
  read_select : DataContainer B → List SelectInfoElem → σ → Outcome String α σ

/-- `ReadArrayData::read_axis` (the provided default): re-derive the full
rank from `get_shape` on the container, pad the selector to that rank with
the entire-axis selector, and delegate to `read_select`. -/
def read_axis {σ : Type} {B : Backend σ} {α : Type} (R : ReadArrayDataImpl σ B α)
    (c : DataContainer B) (axis : Nat) (slice : SelectInfoElem) (s : σ) :
    Outcome String α σ :=
  match R.get_shape c s with
  | .err e s1 => .err e s1
  | .diverge m => .diverge m
  | .ok sh s1 => R.read_select c (slice.set_axis axis sh.length SelectInfoElem.full) s1

/-- A small concrete backend over a trivial store state, used to exercise
the generic definitions on closed inputs.  Groups and datasets are plain
names; the behaviour of each operation is a fixed table over those names. -/
def demoB : Backend Unit where
  Group := String
  Dataset := String
  File := Unit
  exists_ := fun _ n s => .ok (n == ("ds") || n == ("grp") || n == ("both")) s
  open_group := fun _ n s =>
    if n == ("grp") || n == ("both") then .ok n s else .err (("no group ") ++ n) s
  open_dataset := fun _ n s =>
    if n == ("ds") || n == ("both") || n == ("data") then .ok n s
    else .err (("no dataset ") ++ n) s
  delete := fun _ _ s => .ok () s
  file_open_group := fun _ _ s => .ok ("parent") s
  group_file := fun _ s => .ok () s
  dataset_file := fun _ s => .ok () s
  group_path := fun g => if g == ("root") then [] else [g]
  dataset_path := fun d => [d]
  group_read_str_attr := fun _ _ s => .err ("attr io error") s
  dataset_read_str_attr := fun d _ s =>
    if d == ("csc") then .ok ("csc_matrix") s
    else if d == ("weird") then .ok ("weird") s
    else .err ("attr io error") s
  dtype := fun _ s => .ok .F64 s

/-- A container over the demo backend holding the group named `a`. -/
def demoGroupA : DataContainer demoB :=
  .Group ("a")

/-- A container over the demo backend holding the root group, whose path is
empty. -/
def demoRootGroup : DataContainer demoB :=
  .Group ("root")

/-- A container over the demo backend holding the dataset tagged
`csc_matrix`. -/
def demoCscDataset : DataContainer demoB :=
  .Dataset ("csc")

/-- A container over the demo backend holding the dataset tagged with the
out-of-vocabulary tag `weird`. -/
def demoWeirdDataset : DataContainer demoB :=
  .Dataset ("weird")

/-- A container over the demo backend holding the untagged dataset
`plain`. -/
def demoPlainDataset : DataContainer demoB :=
  .Dataset ("plain")

/-- A write implementation over the demo backend that always succeeds,
returning the parent group as the written container. -/
def demoWriteOk : WriteDataImpl Unit demoB Nat where
  write := fun _ pg _ s => .ok (.Group pg) s

/-- A write implementation over the demo backend that always fails with a
recoverable error. -/
def demoWriteErr : WriteDataImpl Unit demoB Nat where
  write := fun _ _ _ s => .err ("disk full") s

/-- A concrete in-memory array entity: a flat list with its length as the
one-axis shape, selection ignored for simplicity of the table. -/
def demoArr : ArrayOpImpl (List Nat) where
  shape := fun a => [a.length]
  get := fun a i =>
    match i with
    | [j] => (a.get? j).map (fun v => DynScalar.U64 v)
    | _ => none
  select := fun a _ => a

/-- A concrete backed-array reader over the demo backend with a fixed
two-axis shape. -/
def demoRead : ReadArrayDataImpl Unit demoB Nat where
  get_shape := fun _ s => .ok [2, 3] s
  read_select := fun _ sel s => .ok sel.length s

/-- The group handle named `parent` over the demo backend. -/
def demoParentGroup : demoB.Group :=
  ("parent")

/-- The dataset handle named `ds` over the demo backend. -/
def demoDatasetDs : demoB.Dataset :=
  ("ds")

/-- The dataset handle named `plain` over the demo backend. -/
def demoDatasetPlain : demoB.Dataset :=
  ("plain")

/-- C2: for every concrete scalar type the dynamic round trip is the
identity, and converting a dynamic value whose variant tag differs from the
target type fails with a type-mismatch error (no numeric coercion ever
succeeds). -/
theorem backend_data_dyn_roundtrip_and_mismatch :
    (∀ (t : ScalarType) (v : scalarCarrier t), from_dyn t (into_dyn t v) = .ok v)
    ∧ (∀ (t : ScalarType) (x : DynScalar), x.tag ≠ t →
        ∃ m, from_dyn t x = .error m) := by
  constructor
  · intro t v
    cases t <;> rfl
  · intro t x h
    cases t <;> cases x <;> first
      | exact absurd rfl h
      | exact ⟨_, rfl⟩

/-- Witness for C2 at concrete inputs: round trip at `i8` value 5, and a
mismatched conversion of a boolean dynamic value against `i8`. -/
theorem backend_data_dyn_roundtrip_and_mismatch_witness :
    from_dyn ScalarType.I8 (into_dyn ScalarType.I8 (5 : Int)) = .ok (5 : Int)
    ∧ (DynScalar.Bool true).tag ≠ ScalarType.I8
    ∧ ∃ m, from_dyn ScalarType.I8 (DynScalar.Bool true) = .error m := by
  refine ⟨backend_data_dyn_roundtrip_and_mismatch.1 ScalarType.I8 (5 : Int), by decide, ?_⟩
  exact backend_data_dyn_roundtrip_and_mismatch.2 ScalarType.I8 (DynScalar.Bool true) (by decide)

theorem encTagOf_eq_spec {σ : Type} {B : Backend σ} (c : DataContainer B) (s : σ) :
    encTagOf c s = specEncodingTagRead c s := rfl

theorem encLookupOf_eq_spec {σ : Type} {B : Backend σ} (c : DataContainer B)
    (enc : String) (s : σ) : encLookupOf c enc s = specEncodingLookup c enc s := by
  unfold encLookupOf specEncodingLookup specDtypeOf specCsrDtypeOf
  split
  · simp_all
  · cases c.as_dataset <;> simp [Outcome.map]
  · simp_all
  · simp_all
  · cases c.as_dataset <;> simp [Outcome.map]
  · simp_all
  · cases c.as_group with
    | error e => simp [Outcome.map]
    | ok g =>
      cases h2 : B.open_dataset g ("data") s with
      | err e s1 => simp [h2, Outcome.map]
      | diverge m => simp [h2, Outcome.map]
      | ok d s1 => cases h3 : B.dtype d s1 <;> simp [h2, h3, Outcome.map]
  · simp_all
  · simp_all
  · simp_all
  · simp_all

theorem HPath.parent_concat (pp : HPath) (leaf : String) :
    HPath.parent (pp ++ [leaf]) = some pp := by
  cases pp with
  | nil => rfl
  | cons a as =>
    have h : (a :: (as ++ [leaf])).dropLast = a :: as := by
      rw [← List.cons_append, List.dropLast_concat]
    simp [HPath.parent, h]

theorem HPath.file_name_concat (pp : HPath) (leaf : String) :
    HPath.file_name (pp ++ [leaf]) = some leaf := by
  simp [HPath.file_name]

/-- C1: resolving a container's logical type is exactly the composition of
the reserved-attribute read with its variant-specific default (`mapping`
for a Group, `numeric-scalar` for a Dataset, both when the attribute read
fails) and the fixed lookup from tags to logical types, whose rows are the
ones the specification lists: string to Scalar(String), numeric-scalar to
Scalar of the dataset's physical dtype, categorical to Categorical,
string-array to Array(String), array to Array of the physical dtype,
csr_matrix to CsrMatrix of the dtype of the group's `data` child dataset,
dataframe to DataFrame, and mapping and dict both to Mapping.  (The
attribute is spelled `encoding_type` in storage.) -/
theorem encoding_type_is_tag_read_then_fixed_lookup {σ : Type} {B : Backend σ}
    (c : DataContainer B) (s : σ) :
    DataContainer.encoding_type c s
      = (specEncodingTagRead c s).bind (fun enc s1 => specEncodingLookup c enc s1)
    ∧ specEncodingLookup c ("string") s = .ok (.Scalar .String) s
    ∧ specEncodingLookup c ("numeric-scalar") s = (specDtypeOf c s).map DataType.Scalar
    ∧ specEncodingLookup c ("categorical") s = .ok .Categorical s
    ∧ specEncodingLookup c ("string-array") s = .ok (.Array .String) s
    ∧ specEncodingLookup c ("array") s = (specDtypeOf c s).map DataType.Array
    ∧ specEncodingLookup c ("csr_matrix") s = (specCsrDtypeOf c s).map DataType.CsrMatrix
    ∧ specEncodingLookup c ("dataframe") s = .ok .DataFrame s
    ∧ specEncodingLookup c ("mapping") s = .ok .Mapping s
    ∧ specEncodingLookup c ("dict") s = .ok .Mapping s := by
  refine ⟨?_, ?_, ?_, ?_, ?_, ?_, ?_, ?_, ?_, ?_⟩
  · unfold DataContainer.encoding_type
    rw [encTagOf_eq_spec]
    cases h : specEncodingTagRead c s <;>
      simp [h, Outcome.bind, encLookupOf_eq_spec]
  all_goals simp [specEncodingLookup]

/-- C3: opening a name under a parent Group fails with a not-found error
when the existence check answers false; when it answers true, a successful
dataset-open wins regardless of how the (unconditionally evaluated)
group-open turns out, a failed dataset-open falls back to a successful
group-open, and when both opens fail the open fails — so the result is
always exactly the Dataset variant, the Group variant, or a failure. -/
theorem open_is_dataset_first_then_group_or_fails {σ : Type} {B : Backend σ}
    (g : B.Group) (n : String) (s : σ) :
    (∀ s1, B.exists_ g n s = .ok false s1 →
      DataContainer.open g n s
        = .err (("No group or dataset named ") ++ n ++ (" in group")) s1)
    ∧ (∀ s1 d s2 g2 s3, B.exists_ g n s = .ok true s1 →
        B.open_dataset g n s1 = .ok d s2 → B.open_group g n s2 = .ok g2 s3 →
        DataContainer.open g n s = .ok (.Dataset d) s3)
    ∧ (∀ s1 d s2 e s3, B.exists_ g n s = .ok true s1 →
        B.open_dataset g n s1 = .ok d s2 → B.open_group g n s2 = .err e s3 →
        DataContainer.open g n s = .ok (.Dataset d) s3)
    ∧ (∀ s1 e1 s2 g2 s3, B.exists_ g n s = .ok true s1 →
        B.open_dataset g n s1 = .err e1 s2 → B.open_group g n s2 = .ok g2 s3 →
        DataContainer.open g n s = .ok (.Group g2) s3)
    ∧ (∀ s1 e1 s2 e2 s3, B.exists_ g n s = .ok true s1 →
        B.open_dataset g n s1 = .err e1 s2 → B.open_group g n s2 = .err e2 s3 →
        DataContainer.open g n s = .err e2 s3) := by
  refine ⟨?_, ?_, ?_, ?_, ?_⟩ <;> intro s1
  · intro h1
    simp [DataContainer.open, h1]
  all_goals intro a2 s2 a3 s3 h1 h2 h3
  all_goals simp [DataContainer.open, h1, h2, h3]

/-- Witness for C3 over the demo backend: the name `ds` exists and opens as
a dataset while its group-open fails, so the open yields the Dataset
variant; the name `nope` does not exist, so the open fails with the
not-found error. -/
theorem open_is_dataset_first_then_group_or_fails_witness :
    DataContainer.open demoParentGroup ("ds") ()
      = .ok (.Dataset ("ds")) ()
    ∧ DataContainer.open demoParentGroup ("nope") ()
      = .err (("No group or dataset named ") ++ ("nope") ++ (" in group")) () := by
  constructor
  · exact (open_is_dataset_first_then_group_or_fails demoParentGroup
      ("ds") ()).2.2.1 () ("ds") () ("no group ds") () rfl rfl rfl
  · exact (open_is_dataset_first_then_group_or_fails demoParentGroup
      ("nope") ()).1 () rfl

/-- C4: when the owning file resolves, the container's path splits into a
parent and a leaf name, the parent group opens, and the delete of the old
child succeeds, then the default overwrite is exactly an ordinary write of
the value under the same leaf name in the same parent group, started from
the state the delete produced — replacement is delete-then-create, never an
in-place patch, and the overwrite returns whatever container the write
creates. -/
theorem overwrite_is_delete_then_write {σ : Type} {B : Backend σ} {V : Type}
    (W : WriteDataImpl σ B V) (v : V) (c : DataContainer B) (s : σ)
    (f : B.File) (s1 : σ) (pp : HPath) (leaf : String) (pg : B.Group)
    (s2 s3 : σ) :
    DataContainer.file c s = .ok f s1 →
    DataContainer.path c = pp ++ [leaf] →
    B.file_open_group f pp s1 = .ok pg s2 →
    B.delete pg leaf s2 = .ok () s3 →
    overwrite W v c s = W.write v pg leaf s3 := by
  intro h1 h2 h3 h4
  unfold overwrite
  simp only [h1, h2, HPath.parent_concat, HPath.file_name_concat, h3, h4]

/-- Witness for C4 over the demo backend: overwriting the group named `a`
with the always-succeeding write deletes `a` from its parent and returns
the container the write produced. -/
theorem overwrite_is_delete_then_write_witness :
    overwrite demoWriteOk 5 demoGroupA () = .ok (.Group ("parent")) () := by
  have h := overwrite_is_delete_then_write demoWriteOk 5 demoGroupA ()
    () () [] ("a") ("parent") () () rfl rfl rfl rfl
  exact h.trans rfl

/-- C5: overwrite is not atomic.  When the delete of the old child has
succeeded and the subsequent write fails, the overwrite returns exactly the
write's failure, with the store in exactly the state the failed write left
behind: nothing further runs after the failure, so the old value is not
restored, no retry is performed, and any fact about that post-failure store
state (such as the name being absent) holds of the overwrite's final
state. -/
theorem overwrite_not_atomic_on_write_failure {σ : Type} {B : Backend σ}
    {V : Type} (W : WriteDataImpl σ B V) (v : V) (c : DataContainer B) (s : σ)
    (f : B.File) (s1 : σ) (pp : HPath) (leaf : String) (pg : B.Group)
    (s2 s3 : σ) (e : String) (s4 : σ) :
    DataContainer.file c s = .ok f s1 →
    DataContainer.path c = pp ++ [leaf] →
    B.file_open_group f pp s1 = .ok pg s2 →
    B.delete pg leaf s2 = .ok () s3 →
    W.write v pg leaf s3 = .err e s4 →
    overwrite W v c s = .err e s4
    ∧ ∀ (P : σ → Prop), P s4 → ∃ st, overwrite W v c s = .err e st ∧ P st := by
  intro h1 h2 h3 h4 h5
  have hmain : overwrite W v c s = .err e s4 := by
    unfold overwrite
    simp only [h1, h2, HPath.parent_concat, HPath.file_name_concat, h3, h4, h5]
  exact ⟨hmain, fun P hP => ⟨s4, hmain, hP⟩⟩

/-- Witness for C5 over the demo backend: overwriting the group named `a`
with the always-failing write deletes `a` and then surfaces the write's
disk-full error as the overwrite's own result. -/
theorem overwrite_not_atomic_on_write_failure_witness :
    overwrite demoWriteErr 5 demoGroupA () = .err ("disk full") () := by
  exact (overwrite_not_atomic_on_write_failure demoWriteErr 5 demoGroupA ()
    () () [] ("a") ("parent") () () ("disk full") () rfl rfl rfl rfl rfl).1

/-- Counterexample to C6 as stated: on the demo backend's dataset tagged
`csc_matrix`, logical-type resolution does not return a recoverable failure
to its caller — it diverges through the unimplemented-code panic. -/
theorem csc_resolution_recoverable_counterexample :
    (DataContainer.encoding_type demoCscDataset ()).isErr = false
    ∧ (DataContainer.encoding_type demoCscDataset ()).isDiverge = true := by
  exact ⟨rfl, rfl⟩

/-- C6 (amended): a container whose effective encoding tag lies outside the
fixed vocabulary resolves to a recoverable unsupported-type failure, while
the recognized-but-unimplemented tag `csc_matrix` makes resolution diverge
through the unimplemented-code panic rather than return a recoverable
failure. -/
theorem unknown_tag_fails_and_csc_diverges {σ : Type} {B : Backend σ}
    (c : DataContainer B) (s : σ) :
    (∀ enc s1, specEncodingTagRead c s = .ok enc s1 → enc ∉ encodingVocab →
      DataContainer.encoding_type c s = .err (("Unsupported type ") ++ enc) s1)
    ∧ (∀ s1, specEncodingTagRead c s = .ok ("csc_matrix") s1 →
      DataContainer.encoding_type c s = .diverge todoMsg) := by
  constructor
  · intro enc s1 h hmem
    have hstep : DataContainer.encoding_type c s = encLookupOf c enc s1 := by
      unfold DataContainer.encoding_type
      rw [encTagOf_eq_spec, h]
      rfl
    rw [hstep]
    unfold encLookupOf
    split <;> simp_all [encodingVocab]
  · intro s1 h
    have hstep : DataContainer.encoding_type c s = encLookupOf c ("csc_matrix") s1 := by
      unfold DataContainer.encoding_type
      rw [encTagOf_eq_spec, h]
      rfl
    rw [hstep]
    rfl

/-- Witness for the amended C6 over the demo backend: the out-of-vocabulary
tag `weird` yields the recoverable unsupported-type error, and the tag
`csc_matrix` yields divergence. -/
theorem unknown_tag_fails_and_csc_diverges_witness :
    DataContainer.encoding_type demoWeirdDataset ()
      = .err (("Unsupported type ") ++ ("weird")) ()
    ∧ DataContainer.encoding_type demoCscDataset () = .diverge todoMsg := by
  constructor
  · exact (unknown_tag_fails_and_csc_diverges demoWeirdDataset ()).1
      ("weird") () rfl (by decide)
  · exact (unknown_tag_fails_and_csc_diverges demoCscDataset ()).2 () rfl

/-- Counterexample to C7 as stated: deleting the demo backend's root group,
whose path has no parent, does not fail with a recoverable failure — it
diverges through the panic of unwrapping the absent parent path. -/
theorem delete_root_recoverable_counterexample :
    (DataContainer.delete demoRootGroup ()).isErr = false
    ∧ (DataContainer.delete demoRootGroup ()).isDiverge = true := by
  exact ⟨rfl, rfl⟩

/-- C7 (amended): deletion resolves the parent group from the parent of the
container's path and removes the child named by the path's last component;
for a container whose path is the file root (no parent), deletion diverges
through the panic of unwrapping the absent parent, rather than returning a
recoverable failure or deleting anything. -/
theorem delete_resolves_parent_and_diverges_at_root {σ : Type} {B : Backend σ}
    (c : DataContainer B) (s : σ) :
    (∀ f s1 pp leaf pg s2, DataContainer.file c s = .ok f s1 →
      DataContainer.path c = pp ++ [leaf] →
      B.file_open_group f pp s1 = .ok pg s2 →
      DataContainer.delete c s = B.delete pg leaf s2)
    ∧ (∀ f s1, DataContainer.file c s = .ok f s1 →
      DataContainer.path c = [] →
      DataContainer.delete c s = .diverge unwrapNoneMsg) := by
  constructor
  · intro f s1 pp leaf pg s2 h1 h2 h3
    unfold DataContainer.delete
    simp only [h1, h2, HPath.parent_concat, HPath.file_name_concat, h3]
  · intro f s1 h1 h2
    unfold DataContainer.delete
    simp only [h1, h2]
    rfl

/-- Witness for the amended C7 over the demo backend: deleting the group
named `a` removes the child `a` from the opened parent group, and deleting
the root group diverges. -/
theorem delete_resolves_parent_and_diverges_at_root_witness :
    DataContainer.delete demoGroupA () = .ok () ()
    ∧ DataContainer.delete demoRootGroup () = .diverge unwrapNoneMsg := by
  constructor
  · exact ((delete_resolves_parent_and_diverges_at_root demoGroupA ()).1
      () () [] ("a") ("parent") () rfl rfl rfl).trans rfl
  · exact (delete_resolves_parent_and_diverges_at_root demoRootGroup ()).2
      () () rfl rfl

theorem set_axis_length (sel : SelectInfoElem) (axis ndim : Nat)
    (fill : SelectInfoElem) :
    (sel.set_axis axis ndim fill).length = ndim := by
  simp [SelectInfoElem.set_axis]

theorem set_axis_getElem (sel : SelectInfoElem) (axis ndim : Nat)
    (fill : SelectInfoElem) (j : Nat) (hj : j < ndim) :
    (sel.set_axis axis ndim fill)[j]? = some (if j = axis then sel else fill) := by
  simp [SelectInfoElem.set_axis, List.getElem?_map, List.getElem?_range, hj]

/-- C8: the single-axis entry points are the general entry points applied
to the padded full-rank selection.  `select_axis` equals `select` on the
selection of rank `shape.ndim` holding the selector at the given axis and
the entire-axis selector everywhere else; `read_axis` equals `read_select`
on the selection padded to the rank re-derived from `get_shape` on the
container before padding. -/
theorem single_axis_selection_delegates_to_full_rank :
    (∀ (α : Type) (E : ArrayOpImpl α) (a : α) (axis : Nat) (sl : SelectInfoElem),
      select_axis E a axis sl
        = E.select a (sl.set_axis axis (E.shape a).length SelectInfoElem.full)
      ∧ (sl.set_axis axis (E.shape a).length SelectInfoElem.full).length
          = (E.shape a).length
      ∧ ∀ j, j < (E.shape a).length →
          (sl.set_axis axis (E.shape a).length SelectInfoElem.full)[j]?
            = some (if j = axis then sl else SelectInfoElem.full))
    ∧ (∀ (σ : Type) (B : Backend σ) (α : Type) (R : ReadArrayDataImpl σ B α)
        (c : DataContainer B) (axis : Nat) (sl : SelectInfoElem) (s : σ)
        (sh : Shape) (s1 : σ), R.get_shape c s = .ok sh s1 →
        read_axis R c axis sl s
          = R.read_select c (sl.set_axis axis sh.length SelectInfoElem.full) s1
        ∧ (sl.set_axis axis sh.length SelectInfoElem.full).length = sh.length
        ∧ ∀ j, j < sh.length →
            (sl.set_axis axis sh.length SelectInfoElem.full)[j]?
              = some (if j = axis then sl else SelectInfoElem.full)) := by
  constructor
  · intro α E a axis sl
    exact ⟨rfl, set_axis_length sl axis _ _,
      fun j hj => set_axis_getElem sl axis _ _ j hj⟩
  · intro σ B α R c axis sl s sh s1 h
    refine ⟨?_, set_axis_length sl axis _ _,
      fun j hj => set_axis_getElem sl axis _ _ j hj⟩
    unfold read_axis
    rw [h]

/-- Witness for C8 over the demo entities: a one-axis in-memory selection,
a backed single-axis read over the fixed 2-by-3 shape, and the padded
selection's entry at a concrete index. -/
theorem single_axis_selection_delegates_to_full_rank_witness :
    select_axis demoArr [7] 0 (SelectInfoElem.points [0]) = [7]
    ∧ read_axis demoRead demoGroupA 1 SelectInfoElem.full () = .ok 2 ()
    ∧ (SelectInfoElem.set_axis SelectInfoElem.full 1 2 SelectInfoElem.full)[0]?
        = some SelectInfoElem.full := by
  refine ⟨?_, ?_, ?_⟩
  · exact ((single_axis_selection_delegates_to_full_rank.1 (List Nat) demoArr
      [7] 0 (SelectInfoElem.points [0])).1).trans rfl
  · exact ((single_axis_selection_delegates_to_full_rank.2 Unit demoB Nat
      demoRead demoGroupA 1 SelectInfoElem.full () [2, 3] () rfl).1).trans rfl
  · have h := (single_axis_selection_delegates_to_full_rank.2 Unit demoB Nat
      demoRead demoGroupA 1 SelectInfoElem.full () [2, 3] () rfl).2.2 0 (by decide)
    simpa using h

/-- C9: the encoding-tag read substitutes the variant's default tag on any
recoverable failure of the attribute read: a backend I/O error on the
attribute is indistinguishable from the attribute being absent, the error
value is dropped, and resolution proceeds through the fixed lookup at the
default tag (`mapping` for a Group, `numeric-scalar` for a Dataset) instead
of propagating the failure. -/
theorem attr_read_failure_gives_default_tag {σ : Type} {B : Backend σ} :
    (∀ (g : B.Group) (s : σ) (e : String) (s1 : σ),
      B.group_read_str_attr g ("encoding_type") s = .err e s1 →
      DataContainer.encoding_type (.Group g) s
        = specEncodingLookup (.Group g) ("mapping") s1)
    ∧ (∀ (d : B.Dataset) (s : σ) (e : String) (s1 : σ),
      B.dataset_read_str_attr d ("encoding_type") s = .err e s1 →
      DataContainer.encoding_type (.Dataset d) s
        = specEncodingLookup (.Dataset d) ("numeric-scalar") s1) := by
  constructor
  · intro g s e s1 h
    unfold DataContainer.encoding_type encTagOf
    simp only [h, Outcome.unwrap_or, Outcome.bind]
    exact encLookupOf_eq_spec _ _ _
  · intro d s e s1 h
    unfold DataContainer.encoding_type encTagOf
    simp only [h, Outcome.unwrap_or, Outcome.bind]
    exact encLookupOf_eq_spec _ _ _

/-- Witness for C9 over the demo backend, whose attribute reads fail with
an I/O error: the group resolves to Mapping and the untagged dataset to
Scalar of its physical dtype, the error never surfacing. -/
theorem attr_read_failure_gives_default_tag_witness :
    DataContainer.encoding_type (.Group demoParentGroup) () = .ok .Mapping ()
    ∧ DataContainer.encoding_type demoPlainDataset () = .ok (.Scalar .F64) () := by
  constructor
  · exact (attr_read_failure_gives_default_tag.1 demoParentGroup ()
      ("attr io error") () rfl).trans rfl
  · exact (attr_read_failure_gives_default_tag.2 demoDatasetPlain ()
      ("attr io error") () rfl).trans rfl

/-- C10: the provided default of the streaming write entry point is an
unimplemented-code panic: for every iterator, group and name it diverges,
never returning a container and never returning a recoverable error. -/
theorem write_from_iter_always_diverges (σ : Type) (B : Backend σ) (ι : Type)
    (it : ι) (g : B.Group) (name : String) (s : σ) :
    write_from_iter B ι it g name s = .diverge todoMsg
    ∧ (write_from_iter B ι it g name s).isOk = false
    ∧ (write_from_iter B ι it g name s).isErr = false := by
  exact ⟨rfl, rfl, rfl⟩
